import Mathlib

/-!
Verification development for the batch-analytics template repository
(`ai-code-templates-for-engineers`).

The Python source manipulates pandas DataFrames.  We embed the fragment the
specification talks about as follows:

* a cell value (`Val`) is a string, an exact rational number (embedding the
  source's floats), a boolean, or `nan` (pandas' missing value / float NaN);
* a `Row` is an association list from column names to values, a `Table` a
  list of rows;
* pandas column assignment `df[c] = v` is `setCol` (replace the column in
  place if present, else append it on the right), column read `df[c]` is
  `getCol`;
* file reads are abstracted by a `ReadResult` input (success with a parsed
  table, or failure with an exception message), and functions that print
  diagnostics return the list of printed messages alongside their result;
* floating-point NaN comparison semantics are kept where the source relies
  on them: `NaN > t` is `False`, and a z-score `0/0` is NaN.

Float rounding itself is not modelled (all arithmetic is exact over `ℚ`),
and NaN-valued *inputs* to feature columns are outside the embedding: the
claims under study only involve well-formed numeric feature values.
-/

set_option autoImplicit false

namespace BatchTools

/-- A cell of a pandas DataFrame: string, (exact) number, boolean, or the
missing value NaN. -/
inductive Val where
  | str (s : String)
  | num (q : ℚ)
  | bool (b : Bool)
  | nan
  deriving DecidableEq

/-- A DataFrame row: association list from column names to cell values. -/
abbrev Row := List (String × Val)

/-- A DataFrame: list of rows.  (Column schema is carried per row.) -/
abbrev Table := List Row

/-- Read column `c` of a row (`df[c]` for one row); `none` when the column
is absent, which in pandas raises a `KeyError`. -/
def getCol : Row → String → Option Val
  | [], _ => none
  | (c0, v0) :: r, c => if c0 = c then some v0 else getCol r c

/-- Pandas column assignment `df[c] = v`, restricted to one row: replace the
column in place when present, otherwise append it as the last column. -/
def setCol : Row → String → Val → Row
  | [], c, v => [(c, v)]
  | (c0, v0) :: r, c, v =>
      if c0 = c then (c, v) :: r else (c0, v0) :: setCol r c v

/-! ## Rule-based risk scorer
(`apply_risk_rules` in `case_studies/batch_summary_tool/batch_summary_runner.py`) -/

/-- `Series.clip(lower, upper)` for a single value. -/
def clip (lower upper x : ℚ) : ℚ := min upper (max lower x)

/-- The boolean rule `(df['component_A'] > 0.70) & (df['avg_pH'] < 6.9)`
for a single row.  (Decimal literals are written as exact fractions:
`0.70 = 7/10`, `6.9 = 69/10`.) -/
def riskFlagRule (component_A avg_pH : ℚ) : Bool :=
  decide (component_A > 7/10) && decide (avg_pH < 69/10)

/-- The score `0.5 * (component_A - 0.70) / 0.1 + 0.5 * (6.9 - avg_pH) / 0.2`
clipped to `[0, 1]`, for a single row (decimal literals as exact
fractions). -/
def riskScoreRule (component_A avg_pH : ℚ) : ℚ :=
  clip 0 1 (1/2 * (component_A - 7/10) / (1/10) + 1/2 * (69/10 - avg_pH) / (2/10))

/-- One row of `apply_risk_rules`: requires the `component_A` and `avg_pH`
columns to hold numbers (otherwise the source raises, uncaught), and adds
the `risk_flag` and `risk_score` columns. -/
def scoreRow (r : Row) : Option Row :=
  match getCol r "component_A", getCol r "avg_pH" with
  | some (Val.num a), some (Val.num ph) =>
      some (setCol (setCol r "risk_flag" (Val.bool (riskFlagRule a ph)))
              "risk_score" (Val.num (riskScoreRule a ph)))
  | _, _ => none

/-- `apply_risk_rules(df)`: adds `risk_flag` and `risk_score` columns to
every row; `none` models the uncaught exception when a required column is
missing. -/
def apply_risk_rules : Table → Option Table
  | [] => some []
  | r :: rs =>
      match scoreRow r, apply_risk_rules rs with
      | some r2, some t => some (r2 :: t)
      | _, _ => none

/-! ## Z-score outlier detector
(`detect_outliers_zscore` in `templates/transform/detect_outliers_zscore.py`) -/

/-- `data.mean()` over the embedded series. -/
def seriesMean (data : List ℚ) : ℚ := data.sum / (data.length : ℚ)

/-- The sum of squared deviations from the mean.  The source's
`data.std()` (pandas, `ddof = 1`) equals `sqrt (sumSqDev data / (n - 1))`:
it is exactly zero iff `sumSqDev data = 0` (and NaN for `n = 1`, where
`sumSqDev` is also `0`). -/
def sumSqDev (data : List ℚ) : ℚ :=
  (data.map (fun x => (x - seriesMean data) ^ 2)).sum

/-- `detect_outliers_zscore(data, threshold)`: flags `|x - mean| / std >
threshold`.  When `sumSqDev data = 0` the z-scores are `0 / 0 = NaN` (for
`n = 1` the std itself is NaN), and every NaN comparison is `False`.
Otherwise `std > 0` and, writing `n` for the length, `|z| > t` holds iff
`t < 0`, or `t ≥ 0` and `(n - 1) * (x - mean)² > t² * sumSqDev` — this
squared form avoids the square root while agreeing with the source's
comparison for every real threshold. -/
def detect_outliers_zscore (data : List ℚ) (threshold : ℚ) : List Bool :=
  let m := seriesMean data
  let ss := sumSqDev data
  let n : ℚ := (data.length : ℚ)
  data.map (fun x =>
    if ss = 0 then false
    else decide (threshold < 0 ∨ (n - 1) * (x - m) ^ 2 > threshold ^ 2 * ss))

/-! ## CSV loaders
(`templates/io/load_csv_file.py`, `templates/data_loading.py`,
`case_studies/batch_summary_tool/risk_logic_generator.py`) -/

/-- The outcome of `pd.read_csv(path)`: a parsed table, or an exception
(file not found, parse error, ...) with its message. -/
inductive ReadResult where
  | ok (t : Table)
  | err (msg : String)

/-- `load_csv_file(file_path, file_type)` from
`templates/io/load_csv_file.py` (and, with the same body, from
`batch_summary_runner.py` and `predict_new_batch_risks.py`): returns the
parsed table, or an empty table on any exception; second component is the
list of printed messages. -/
def load_csv_file (res : ReadResult) (file_type : String) : Table × List String :=
  match res with
  | ReadResult.ok t => (t, ["Loaded " ++ file_type])
  | ReadResult.err e => ([], ["Failed to load " ++ file_type ++ " file: " ++ e])

/-- `load_csv(filepath)` from `templates/data_loading.py`: returns the
parsed table on success but Python `None` (here `Option.none`) on any
exception, unlike every other loader variant. -/
def data_loading_load_csv (res : ReadResult) : Option Table × List String :=
  match res with
  | ReadResult.ok t => (some t, ["Loaded rows"])
  | ReadResult.err e => (none, ["Error loading: " ++ e])

/-- `load_csv(file_path, label)` from
`case_studies/batch_summary_tool/risk_logic_generator.py`: empty table on
any exception. -/
def risk_logic_load_csv (res : ReadResult) (label : String) : Table × List String :=
  match res with
  | ReadResult.ok t => (t, ["Loaded " ++ label])
  | ReadResult.err e => ([], ["Error loading " ++ label ++ ": " ++ e])

/-- Python `str.endswith(suffix)` over the embedded path strings
(kernel-executable, unlike `String.endsWith`). -/
def pathEndsWith (s suffix : String) : Bool := suffix.data.isSuffixOf s.data

/-- The header columns of a parsed table (`df.columns`): pandas takes them
from the CSV header, shared by every row; here, read off the first row. -/
def tableCols (t : Table) : List String := (t.headD []).map Prod.fst

/-- `load_defect_data(file_path)` from `defect_heatmap_runner.py` and,
with an identical body, `spatial_defect_map_runner.py`: *no* `try/except`,
so a failing `pd.read_csv` propagates to the caller; on a successful read
it raises `ValueError` unless the declared columns `x`, `y`, `type`,
`severity` are all present. -/
def load_defect_data (res : ReadResult) : Except String Table :=
  match res with
  | ReadResult.err e => Except.error e
  | ReadResult.ok df =>
      if ["x", "y", "type", "severity"].all (fun c => (tableCols df).contains c) then
        Except.ok df
      else
        Except.error "ValueError: Missing required columns"

/-- `load_data(file_path, value_column)` from `spc_runner.py`: dispatches
on the path extension — `.csv` via `pd.read_csv`, `.xls`/`.xlsx` via
`pd.read_excel` (both reads abstracted by the same `ReadResult`), any
other extension raises `ValueError` — with *no* `try/except`; then raises
`ValueError` when `value_column` is absent from the parsed columns, else
returns that column as a Series. -/
def load_data (file_path : String) (res : ReadResult) (value_column : String) :
    Except String (List Val) :=
  match
    (if pathEndsWith file_path ".csv" then
       match res with
       | ReadResult.ok df => Except.ok df
       | ReadResult.err e => Except.error e
     else if pathEndsWith file_path ".xls" || pathEndsWith file_path ".xlsx" then
       match res with
       | ReadResult.ok df => Except.ok df
       | ReadResult.err e => Except.error e
     else
       (Except.error "ValueError: Unsupported file format. Use CSV or Excel." :
         Except String Table)) with
  | Except.error e => Except.error e
  | Except.ok df =>
      if (tableCols df).contains value_column then
        Except.ok (df.map (fun r => (getCol r value_column).getD Val.nan))
      else
        Except.error "ValueError: Column not found in file."

/-! ## Merges
(`templates/transform/merge_batch_and_qc.py` and `merge_batch_data` in
`batch_summary_runner.py`).  `pd.merge(A, B, on=key, how=...)` on a single
key column: a row of `A` pairs with every row of `B` whose key value is
equal; the paired row is the `A` row followed by the `B` row minus its key
column.  (Pandas' `_x`/`_y` suffixing of other shared column names is not
modelled; the claims concern row counts only.) -/

/-- Drop a column from a row (the merge drops the right table's copy of the
key column). -/
def dropCol (r : Row) (c : String) : Row := r.filter (fun p => p.1 ≠ c)

/-- The rows of `B` matching row `a` of the left table on `key`. -/
def matchRows (B : Table) (key : String) (a : Row) : Table :=
  B.filter (fun b => getCol b key = getCol a key)

/-- The non-key columns of the right table, null-filled (for left-join rows
with no match). -/
def nullCols (B : Table) (key : String) : Row :=
  (dropCol (B.headD []) key).map (fun p => (p.1, Val.nan))

/-- `pd.merge(A, B, on=key, how='inner')`: each left row pairs with each
matching right row. -/
def innerMerge : Table → Table → String → Table
  | [], _, _ => []
  | a :: A, B, key =>
      (matchRows B key a).map (fun b => a ++ dropCol b key) ++ innerMerge A B key

/-- `pd.merge(A, B, on=key, how='left')`: a left row with no match
survives once, its right-table columns null. -/
def leftMerge : Table → Table → String → Table
  | [], _, _ => []
  | a :: A, B, key =>
      (match matchRows B key a with
       | [] => [a ++ nullCols B key]
       | ms => ms.map (fun b => a ++ dropCol b key)) ++ leftMerge A B key

/-- `merge_batch_data(batch_df, qc_df, coa_df)` from
`batch_summary_runner.py`: left join on `batch_id`, then left join on
`supplier_lot`.  (The source's `try/except` degrades a missing *key column*
to an empty table; that path is not exercised by the claims and key columns
are looked up per row here.) -/
def merge_batch_data (batch_df qc_df coa_df : Table) : Table :=
  leftMerge (leftMerge batch_df qc_df "batch_id") coa_df "supplier_lot"

/-- `merge_batch_and_qc(batch_df, qc_df, coa_df)` from
`templates/transform/merge_batch_and_qc.py` (same body as `merge_data` in
`risk_logic_generator.py`): inner join on `batch_id`, then left join on
`supplier_lot`. -/
def merge_batch_and_qc (batch_df qc_df coa_df : Table) : Table :=
  leftMerge (innerMerge batch_df qc_df "batch_id") coa_df "supplier_lot"

/-! ## Log appender
(`templates/io/append_to_log.py`; `predict_new_batch_risks.py` carries the
same body).  The on-disk log is `Option Table` (`none` = the file does not
exist).  The column projection `df[features_to_log]` happens *before* the
`try:` block, so a missing column raises to the caller; everything inside
the `try` is caught and degraded to a printed message (I/O errors of the
write itself are not modelled). -/

/-- `df[cols]` for one row: project onto the listed columns, in list order;
`none` models the `KeyError` when a column is missing. -/
def projectRow (cols : List String) (r : Row) : Option Row :=
  match cols with
  | [] => some []
  | c :: cs =>
      match getCol r c, projectRow cs r with
      | some v, some rest => some ((c, v) :: rest)
      | _, _ => none

/-- `df[cols]` for a table. -/
def projectTable (cols : List String) : Table → Option Table
  | [] => some []
  | r :: rs =>
      match projectRow cols r, projectTable cols rs with
      | some r2, some t => some (r2 :: t)
      | _, _ => none

/-- `append_to_log(df, log_path, features_to_log)`: `log` is the current
on-disk state.  `Except.error` is the uncaught `KeyError` from the
projection (the log is untouched); `Except.ok` carries the new on-disk
state — existing rows followed by the projected new rows, no
deduplication. -/
def append_to_log (df : Table) (log : Option Table) (features_to_log : List String) :
    Except String (Option Table) :=
  match projectTable features_to_log df with
  | none => Except.error "KeyError: missing column in features_to_log"
  | some new_data =>
      match log with
      | some existing => Except.ok (some (existing ++ new_data))
      | none => Except.ok (some new_data)

/-! ## Model inference
(`templates/models/apply_model_to_batch.py`; `apply_models` in
`predict_new_batch_risks.py` carries the same body).  The fitted scaler and
model are opaque in the source (pickled sklearn objects); they are embedded
as opaque functions.  GMM cluster ids are integers in the source; they are
embedded inside `ℚ` (as is the JSON `cluster_map`, whose keys are coerced
to int before use). -/

/-- The `model_dict` of the source: `'scaler'` (its `transform`, per row)
and `'model'` (its `predict`, used on the GMM path to give a cluster id,
and its `predict_proba`'s positive-class column, used on the supervised
path). -/
structure ModelDict where
  scaler : List ℚ → List ℚ
  predict : List ℚ → ℚ
  predict_proba : List ℚ → ℚ

/-- Read a numeric cell. -/
def getNum (r : Row) (c : String) : Option ℚ :=
  match getCol r c with
  | some (Val.num q) => some q
  | _ => none

/-- Read a cell with pandas' missing-value default (used only on columns
that were just assigned). -/
def getColD (r : Row) (c : String) : Val := (getCol r c).getD Val.nan

/-- `X = df[features]` for one row: all feature columns must be present
and numeric (a missing column raises a `KeyError`, caught by the
function's `except`). -/
def extractFeatures (r : Row) : List String → Option (List ℚ)
  | [] => some []
  | c :: cs =>
      match getNum r c, extractFeatures r cs with
      | some q, some qs => some (q :: qs)
      | _, _ => none

/-- `X = df[features]` for the whole table. -/
def extractX (features : List String) : Table → Option (List (List ℚ))
  | [] => some []
  | r :: rs =>
      match extractFeatures r features, extractX features rs with
      | some x, some xs => some (x :: xs)
      | _, _ => none

/-- `Series.map(cluster_map)` applied to one cell of the `gmm_cluster`
column: a key missing from the dict yields NaN, silently. -/
def mapLookup : List (ℚ × ℚ) → ℚ → Option ℚ
  | [], _ => none
  | (k, p) :: m, c => if k = c then some p else mapLookup m c

/-- One cell of `df['gmm_cluster'].map(cluster_map)`. -/
def clusterLookup (cluster_map : List (ℚ × ℚ)) (v : Val) : Val :=
  match v with
  | Val.num c =>
      match mapLookup cluster_map c with
      | some p => Val.num p
      | none => Val.nan
  | _ => Val.nan

/-- One cell of `df[col] > flag_threshold`: NaN (and any non-numeric
value) compares `False`. -/
def valGtThreshold (v : Val) (t : ℚ) : Bool :=
  match v with
  | Val.num q => decide (q > t)
  | _ => false

/-- `apply_model_to_batch(df, model_dict, features, method_label,
flag_threshold, cluster_map)`.  Second component: the list of messages
printed by the `except` handler (empty iff no exception was caught).
Mirrors the source's control flow: feature extraction failure returns `df`
unchanged; on the GMM path the `gmm_cluster` column is assigned *before*
the `cluster_map is None` check, so that failure returns the partially
modified table; otherwise the `p_failure` column is assigned and then the
`risk_flag` column is computed from it. -/
def apply_model_to_batch (df : Table) (model_dict : ModelDict)
    (features : List String) (method_label : String) (flag_threshold : ℚ)
    (cluster_map : Option (List (ℚ × ℚ))) : Table × List String :=
  match extractX features df with
  | none => (df, ["Error in " ++ method_label ++ " prediction: KeyError"])
  | some X =>
      let X_scaled := X.map model_dict.scaler
      if method_label = "gmm" then
        let cluster_id := X_scaled.map model_dict.predict
        let df1 := (df.zip cluster_id).map
          (fun p => setCol p.1 "gmm_cluster" (Val.num p.2))
        match cluster_map with
        | some cm =>
            let df2 := df1.map (fun r =>
              setCol r "gmm_p_failure" (clusterLookup cm (getColD r "gmm_cluster")))
            let df3 := df2.map (fun r =>
              setCol r "gmm_risk_flag"
                (Val.bool (valGtThreshold (getColD r "gmm_p_failure") flag_threshold)))
            (df3, [])
        | none =>
            (df1, ["Error in gmm prediction: Missing cluster_map input for GMM model."])
      else
        let p_failure := X_scaled.map model_dict.predict_proba
        let df1 := (df.zip p_failure).map
          (fun p => setCol p.1 (method_label ++ "_p_failure") (Val.num p.2))
        let df2 := df1.map (fun r =>
          setCol r (method_label ++ "_risk_flag")
            (Val.bool (valGtThreshold (getColD r (method_label ++ "_p_failure")) flag_threshold)))
        (df2, [])

/-- No two rows of `B` share a value in the `key` column (e.g.
"`batch_id` is unique per QC row"). -/
def keyUnique (B : Table) (key : String) : Prop :=
  B.Pairwise (fun b1 b2 => getCol b1 key ≠ getCol b2 key)

/-! ## Helper lemmas -/

theorem getCol_setCol_self (r : Row) (c : String) (v : Val) :
    getCol (setCol r c v) c = some v := by
  induction r with
  | nil => simp [setCol, getCol]
  | cons p r ih =>
      by_cases h : p.1 = c
      · simp [setCol, getCol, h]
      · simp [setCol, getCol, h, ih]

theorem getCol_setCol_ne (r : Row) (c c' : String) (v : Val) (h : c ≠ c') :
    getCol (setCol r c v) c' = getCol r c' := by
  induction r with
  | nil => simp [setCol, getCol, h]
  | cons p r ih =>
      by_cases h0 : p.1 = c
      · simp [setCol, getCol, h0, h]
      · simp [setCol, getCol, h0, ih]

theorem pfail_ne_flag (s : String) : s ++ "_p_failure" ≠ s ++ "_risk_flag" := by
  intro h
  have h2 := congrArg String.data h
  rw [String.data_append, String.data_append] at h2
  have h3 := List.append_cancel_left h2
  exact absurd (String.ext h3) (by decide)

theorem clip_eval (x : ℚ) (h0 : 0 ≤ x) (h1 : x ≤ 1) : clip 0 1 x = x := by
  unfold clip
  rw [max_eq_right h0, min_eq_right h1]

theorem matchRows_length_le_one (B : Table) (key : String) (a : Row)
    (h : keyUnique B key) : (matchRows B key a).length ≤ 1 := by
  induction B with
  | nil => simp [matchRows]
  | cons b B ih =>
      rcases h with _ | ⟨hb, hB⟩
      by_cases hm : getCol b key = getCol a key
      · have hnil : matchRows B key a = [] := by
          unfold matchRows
          rw [List.filter_eq_nil_iff]
          intro b' hb'
          simp only [decide_eq_true_eq]
          intro hb'm
          exact hb b' hb' (hm.trans hb'm.symm)
        unfold matchRows at hnil ⊢
        rw [List.filter_cons]
        simp [hm, hnil]
      · have h2 := ih hB
        unfold matchRows at h2 ⊢
        rw [List.filter_cons]
        simpa [hm] using h2

theorem leftMerge_length (A B : Table) (key : String) (h : keyUnique B key) :
    (leftMerge A B key).length = A.length := by
  induction A with
  | nil => rfl
  | cons a A ih =>
      rw [leftMerge]
      rcases hm : matchRows B key a with _ | ⟨b, ms⟩
      · simp [ih]
      · have hle := matchRows_length_le_one B key a h
        rw [hm] at hle
        have : ms = [] := by
          cases ms with
          | nil => rfl
          | cons _ _ => simp at hle
        subst this
        simp [ih]

theorem leftMerge_length_ge (A B : Table) (key : String) :
    A.length ≤ (leftMerge A B key).length := by
  induction A with
  | nil => simp [leftMerge]
  | cons a A ih =>
      rw [leftMerge]
      rcases hm : matchRows B key a with _ | ⟨b, ms⟩
      · simpa using Nat.add_le_add_right ih 1
      · simp only [List.length_append, List.length_cons, List.length_map]
        omega

theorem innerMerge_length_le (A B : Table) (key : String) (h : keyUnique B key) :
    (innerMerge A B key).length ≤ A.length := by
  induction A with
  | nil => simp [innerMerge]
  | cons a A ih =>
      rw [innerMerge]
      have hle := matchRows_length_le_one B key a h
      simp only [List.length_append, List.length_map, List.length_cons]
      omega

/-! ## Claim theorems -/

/-- C4: for a record carrying numeric `component_A` and `avg_pH`, the
rule-based scorer adds `risk_flag = (component_A > 0.70 AND avg_pH < 6.9)`
and `risk_score = clip(0.5*(component_A-0.70)/0.1 + 0.5*(6.9-avg_pH)/0.2,
0, 1)`.  (The witness instantiates the spec's B1 scenario: `component_A =
0.75`, `avg_pH = 6.8` gives `risk_flag = True`, `risk_score = 0.5`.) -/
theorem apply_risk_rules_formula (r : Row) (a ph : ℚ)
    (ha : getCol r "component_A" = some (Val.num a))
    (hph : getCol r "avg_pH" = some (Val.num ph)) :
    apply_risk_rules [r] =
      some [setCol (setCol r "risk_flag"
              (Val.bool (decide (a > 7/10) && decide (ph < 69/10))))
            "risk_score"
              (Val.num (clip 0 1 (1/2 * (a - 7/10) / (1/10) + 1/2 * (69/10 - ph) / (2/10))))] := by
  simp [apply_risk_rules, scoreRow, ha, hph, riskFlagRule, riskScoreRule]

/-- Witness for C4: the spec's scenario row B1 (`component_A = 0.75`,
`avg_pH = 6.8`) gets `risk_flag = True` and `risk_score = 0.5`. -/
theorem apply_risk_rules_formula_witness :
    apply_risk_rules
        [[("batch_id", Val.str "B1"), ("component_A", Val.num (3/4)),
          ("avg_pH", Val.num (34/5))]] =
      some [[("batch_id", Val.str "B1"), ("component_A", Val.num (3/4)),
             ("avg_pH", Val.num (34/5)), ("risk_flag", Val.bool true),
             ("risk_score", Val.num (1/2))]] := by
  have h := apply_risk_rules_formula
    [("batch_id", Val.str "B1"), ("component_A", Val.num (3/4)), ("avg_pH", Val.num (34/5))]
    (3/4) (34/5) rfl rfl
  rw [h]
  have hflag : (decide ((3:ℚ)/4 > 7/10) && decide ((34:ℚ)/5 < 69/10)) = true := by
    rw [decide_eq_true (by norm_num : (3:ℚ)/4 > 7/10),
        decide_eq_true (by norm_num : (34:ℚ)/5 < 69/10)]
    rfl
  have hscore :
      clip 0 1 (1/2 * ((3:ℚ)/4 - 7/10) / (1/10) + 1/2 * (69/10 - 34/5) / (2/10)) = 1/2 := by
    rw [show (1/2 * ((3:ℚ)/4 - 7/10) / (1/10) + 1/2 * (69/10 - 34/5) / (2/10)) = 1/2 by
      norm_num]
    exact clip_eval _ (by norm_num) (by norm_num)
  rw [hflag, hscore]
  simp [setCol]

/-- C5: the rule-based `risk_score` is monotonically non-decreasing in
`component_A`, non-increasing in `avg_pH`, and always in `[0, 1]`. -/
theorem riskScoreRule_monotone_and_bounded :
    (∀ a a' ph : ℚ, a ≤ a' → riskScoreRule a ph ≤ riskScoreRule a' ph) ∧
    (∀ a ph ph' : ℚ, ph ≤ ph' → riskScoreRule a ph' ≤ riskScoreRule a ph) ∧
    (∀ a ph : ℚ, 0 ≤ riskScoreRule a ph ∧ riskScoreRule a ph ≤ 1) := by
  refine ⟨fun a a' ph h => ?_, fun a ph ph' h => ?_, fun a ph => ⟨?_, ?_⟩⟩
  · exact min_le_min le_rfl (max_le_max le_rfl (by
      have h2 : (1:ℚ)/2 * (a - 7/10) / (1/10) ≤ 1/2 * (a' - 7/10) / (1/10) := by linarith
      linarith))
  · exact min_le_min le_rfl (max_le_max le_rfl (by
      have h2 : (1:ℚ)/2 * (69/10 - ph') / (2/10) ≤ 1/2 * (69/10 - ph) / (2/10) := by linarith
      linarith))
  · exact le_min (by norm_num) (le_max_left 0 _)
  · exact min_le_left 1 _

/-- Witness for C5 (extreme inputs): monotone step in `component_A`,
monotone step in `avg_pH`, and bounds at a far-out point. -/
theorem riskScoreRule_monotone_and_bounded_witness :
    riskScoreRule 0 7 ≤ riskScoreRule 1000 7 ∧
    riskScoreRule 0.8 7 ≤ riskScoreRule 0.8 (-1000) ∧
    (0 ≤ riskScoreRule 1000000 (-1000000) ∧ riskScoreRule 1000000 (-1000000) ≤ 1) :=
  ⟨riskScoreRule_monotone_and_bounded.1 0 1000 7 (by norm_num),
   riskScoreRule_monotone_and_bounded.2.1 0.8 (-1000) 7 (by norm_num),
   riskScoreRule_monotone_and_bounded.2.2 1000000 (-1000000)⟩

/-- C6: when the sum of squared deviations is zero — exactly the case in
which the series' sample standard deviation is `0` (or NaN, for a
single-point series) — the z-score detector flags no point: every z-score
is the NaN `0 / 0` and NaN comparisons are `False`.  No exception is
raised (the function is total). -/
theorem detect_outliers_zscore_zero_std (data : List ℚ) (threshold : ℚ)
    (h : sumSqDev data = 0) :
    detect_outliers_zscore data threshold = List.replicate data.length false := by
  unfold detect_outliers_zscore
  simp [h, List.map_const']

/-- Witness for C6: a constant three-point series. -/
theorem detect_outliers_zscore_zero_std_witness :
    sumSqDev [2, 2, 2] = 0 ∧
    detect_outliers_zscore [2, 2, 2] 3 = List.replicate 3 false :=
  ⟨by norm_num [sumSqDev, seriesMean],
   detect_outliers_zscore_zero_std [2, 2, 2] 3 (by norm_num [sumSqDev, seriesMean])⟩

/-- C7: with `batch_id` unique per QC row and `supplier_lot` unique per
COA row, the inner-join variant (`merge_batch_and_qc`) has at most
`count(batch)` rows, the left-join variant (`merge_batch_data`) exactly
`count(batch)` rows, and the second (COA) join never drops rows (any
left table only grows under it). -/
theorem merge_row_counts (batch_df qc_df coa_df : Table)
    (hqc : keyUnique qc_df "batch_id")
    (hcoa : keyUnique coa_df "supplier_lot") :
    (merge_batch_and_qc batch_df qc_df coa_df).length ≤ batch_df.length ∧
    (merge_batch_data batch_df qc_df coa_df).length = batch_df.length ∧
    (∀ X : Table, X.length ≤ (leftMerge X coa_df "supplier_lot").length) := by
  refine ⟨?_, ?_, fun X => leftMerge_length_ge X coa_df "supplier_lot"⟩
  · unfold merge_batch_and_qc
    rw [leftMerge_length _ coa_df "supplier_lot" hcoa]
    exact innerMerge_length_le batch_df qc_df "batch_id" hqc
  · unfold merge_batch_data
    rw [leftMerge_length _ coa_df "supplier_lot" hcoa,
        leftMerge_length batch_df qc_df "batch_id" hqc]

/-- Witness for C7: two batches sharing one supplier lot, one QC row, one
COA row; the inner variant keeps 1 of 2 rows, the left variant keeps 2. -/
theorem merge_row_counts_witness :
    (merge_batch_and_qc
        [[("batch_id", Val.num 1), ("supplier_lot", Val.str "A")],
         [("batch_id", Val.num 2), ("supplier_lot", Val.str "A")]]
        [[("batch_id", Val.num 1), ("viability_pct", Val.num 0.92)]]
        [[("supplier_lot", Val.str "A"), ("cert_date", Val.str "2024-01-01")]]).length ≤ 2 ∧
    (merge_batch_data
        [[("batch_id", Val.num 1), ("supplier_lot", Val.str "A")],
         [("batch_id", Val.num 2), ("supplier_lot", Val.str "A")]]
        [[("batch_id", Val.num 1), ("viability_pct", Val.num 0.92)]]
        [[("supplier_lot", Val.str "A"), ("cert_date", Val.str "2024-01-01")]]).length = 2 ∧
    (∀ X : Table,
      X.length ≤ (leftMerge X
        [[("supplier_lot", Val.str "A"), ("cert_date", Val.str "2024-01-01")]]
        "supplier_lot").length) :=
  merge_row_counts
    [[("batch_id", Val.num 1), ("supplier_lot", Val.str "A")],
     [("batch_id", Val.num 2), ("supplier_lot", Val.str "A")]]
    [[("batch_id", Val.num 1), ("viability_pct", Val.num 0.92)]]
    [[("supplier_lot", Val.str "A"), ("cert_date", Val.str "2024-01-01")]]
    (by simp [keyUnique]) (by simp [keyUnique])

theorem projectTable_append (cols : List String) (X Y : Table) :
    projectTable cols (X ++ Y) =
      match projectTable cols X, projectTable cols Y with
      | some tX, some tY => some (tX ++ tY)
      | _, _ => none := by
  induction X with
  | nil =>
      simp only [List.nil_append, projectTable]
      cases projectTable cols Y <;> rfl
  | cons r rs ih =>
      show projectTable cols (r :: (rs ++ Y)) = _
      rw [projectTable, projectTable]
      rw [ih]
      cases projectRow cols r <;> cases projectTable cols rs <;>
        cases projectTable cols Y <;> rfl

theorem projectRow_none_iff (cols : List String) (r : Row) :
    projectRow cols r = none ↔ ∃ c ∈ cols, getCol r c = none := by
  induction cols with
  | nil => simp [projectRow]
  | cons c cs ih =>
      rw [projectRow]
      simp only [List.mem_cons]
      cases hc : getCol r c with
      | none =>
          constructor
          · intro _
            exact ⟨c, Or.inl rfl, hc⟩
          · intro _
            rfl
      | some v =>
          cases hp : projectRow cs r with
          | none =>
              constructor
              · intro _
                obtain ⟨c', hc', hg⟩ := ih.1 hp
                exact ⟨c', Or.inr hc', hg⟩
              · intro _
                rfl
          | some rest =>
              constructor
              · intro h
                exact Option.noConfusion h
              · rintro ⟨c', rfl | hc', hg⟩
                · rw [hg] at hc
                  exact Option.noConfusion hc
                · have h2 := ih.2 ⟨c', hc', hg⟩
                  rw [h2] at hp
                  exact Option.noConfusion hp

theorem projectTable_none_iff (cols : List String) (df : Table) :
    projectTable cols df = none ↔ ∃ r ∈ df, projectRow cols r = none := by
  induction df with
  | nil => simp [projectTable]
  | cons r rs ih =>
      rw [projectTable]
      simp only [List.mem_cons]
      cases hr : projectRow cols r with
      | none =>
          constructor
          · intro _
            exact ⟨r, Or.inl rfl, hr⟩
          · intro _
            rfl
      | some r2 =>
          cases hp : projectTable cols rs with
          | none =>
              constructor
              · intro _
                obtain ⟨r', hr', hg⟩ := ih.1 hp
                exact ⟨r', Or.inr hr', hg⟩
              · intro _
                rfl
          | some t =>
              constructor
              · intro h
                exact Option.noConfusion h
              · rintro ⟨r', rfl | hr', hg⟩
                · rw [hg] at hr
                  exact Option.noConfusion hr
                · have h2 := ih.2 ⟨r', hr', hg⟩
                  rw [h2] at hp
                  exact Option.noConfusion hp

/-- C8: appending batch X then batch Y to any log state equals appending
`X ++ Y` in one call — exact equality of final states, including the error
cases (a missing projection column fails both ways).  In both directions
the appended rows are the inputs projected onto `features_to_log`, with no
deduplication. -/
theorem append_to_log_assoc (log : Option Table) (X Y : Table) (cols : List String) :
    ((append_to_log X log cols).bind fun l1 => append_to_log Y l1 cols) =
      append_to_log (X ++ Y) log cols := by
  unfold append_to_log
  rw [projectTable_append]
  cases hX : projectTable cols X with
  | none => rfl
  | some tX =>
      cases hY : projectTable cols Y with
      | none => cases log <;> rfl
      | some tY =>
          cases log with
          | none => simp [Except.bind]
          | some existing => simp [Except.bind, List.append_assoc]

/-- C9: `append_to_log` raises (an uncaught `KeyError` that propagates to
the caller, leaving the log state untouched — the error branch carries no
new log) exactly when some requested column is absent from some input row;
with all projection columns present it always succeeds, so the projection
is the appender's only uncaught failure mode. -/
theorem append_to_log_error_iff_missing_column (df : Table) (log : Option Table)
    (cols : List String) :
    (∃ e, append_to_log df log cols = Except.error e) ↔
      ∃ r ∈ df, ∃ c ∈ cols, getCol r c = none := by
  constructor
  · rintro ⟨e, he⟩
    unfold append_to_log at he
    rcases hP : projectTable cols df with _ | t
    · obtain ⟨r, hr, hpr⟩ := (projectTable_none_iff cols df).1 hP
      obtain ⟨c, hc, hgc⟩ := (projectRow_none_iff cols r).1 hpr
      exact ⟨r, hr, c, hc, hgc⟩
    · rw [hP] at he
      cases log <;> simp at he
  · rintro ⟨r, hr, c, hc, hgc⟩
    have hpr : projectRow cols r = none := (projectRow_none_iff cols r).2 ⟨c, hc, hgc⟩
    have hP : projectTable cols df = none := (projectTable_none_iff cols df).2 ⟨r, hr, hpr⟩
    refine ⟨"KeyError: missing column in features_to_log", ?_⟩
    unfold append_to_log
    rw [hP]

/-- Witness for C9: a row without a `batch_id` column makes the appender
raise, while the same append with an existing column succeeds. -/
theorem append_to_log_error_iff_missing_column_witness :
    ∃ e, append_to_log [[("a", Val.num 1)]] none ["batch_id"] = Except.error e :=
  (append_to_log_error_iff_missing_column [[("a", Val.num 1)]] none ["batch_id"]).2
    ⟨[("a", Val.num 1)], by simp, "batch_id", by simp, by rfl⟩

/-- C2 counterexample: on a failing file read, the loader variant
`data_loading.load_csv` returns Python `None`, not a table (empty or
otherwise). -/
theorem data_loading_load_csv_returns_none :
    (data_loading_load_csv (ReadResult.err "No such file or directory")).1 = none := rfl

/-- C2 amended: the loaders with a `try/except` — `load_csv_file` (the
template and both runner copies), `risk_logic_generator.load_csv` and
`data_loading.load_csv` — never raise on a failing read and emit a
diagnostic; of these, all return an empty table except
`data_loading.load_csv`, which returns `None`.  The loaders without a
`try/except` — `load_defect_data` in the two defect-map runners and
`spc_runner.load_data` — propagate the read failure to the caller and
raise `ValueError` on missing declared columns, so emptiness is a
failure signal only for the `try/except` family. -/
theorem loaders_on_failure (e lbl vcol path : String) (df : Table) :
    load_csv_file (ReadResult.err e) lbl =
      ([], ["Failed to load " ++ lbl ++ " file: " ++ e]) ∧
    risk_logic_load_csv (ReadResult.err e) lbl =
      ([], ["Error loading " ++ lbl ++ ": " ++ e]) ∧
    data_loading_load_csv (ReadResult.err e) = (none, ["Error loading: " ++ e]) ∧
    load_defect_data (ReadResult.err e) = Except.error e ∧
    ((["x", "y", "type", "severity"].all
        (fun c => (tableCols df).contains c)) = false →
      ∃ msg, load_defect_data (ReadResult.ok df) = Except.error msg) ∧
    (pathEndsWith path ".csv" = true →
      load_data path (ReadResult.err e) vcol = Except.error e) ∧
    (pathEndsWith path ".csv" = true → (tableCols df).contains vcol = false →
      ∃ msg, load_data path (ReadResult.ok df) vcol = Except.error msg) := by
  refine ⟨rfl, rfl, rfl, rfl, ?_, ?_, ?_⟩
  · intro h
    refine ⟨"ValueError: Missing required columns", ?_⟩
    simp only [load_defect_data]
    simp
    simpa using h
  · intro hcsv
    simp [load_data, hcsv]
  · intro hcsv hvc
    refine ⟨"ValueError: Column not found in file.", ?_⟩
    simp [load_data, hcsv]
    simpa using hvc

/-- Witness for C2 (amended): a one-column table missing the declared
columns makes `load_defect_data` and `load_data` raise, and a failing
read propagates through `load_data`. -/
theorem loaders_on_failure_witness :
    (∃ msg, load_defect_data (ReadResult.ok [[("a", Val.num 1)]]) = Except.error msg) ∧
    load_data "spc.csv" (ReadResult.err "No such file") "value" =
      Except.error "No such file" ∧
    (∃ msg, load_data "spc.csv" (ReadResult.ok [[("a", Val.num 1)]]) "value" =
      Except.error msg) :=
  ⟨(loaders_on_failure "No such file" "L" "value" "spc.csv"
      [[("a", Val.num 1)]]).2.2.2.2.1 (by decide),
   (loaders_on_failure "No such file" "L" "value" "spc.csv"
      [[("a", Val.num 1)]]).2.2.2.2.2.1 (by decide),
   (loaders_on_failure "No such file" "L" "value" "spc.csv"
      [[("a", Val.num 1)]]).2.2.2.2.2.2 (by decide) (by decide)⟩

theorem extractX_length (features : List String) (df : Table) (X : List (List ℚ))
    (h : extractX features df = some X) : X.length = df.length := by
  induction df generalizing X with
  | nil =>
      rw [extractX] at h
      cases h
      rfl
  | cons r rs ih =>
      rw [extractX] at h
      cases hf : extractFeatures r features with
      | none => rw [hf] at h; exact Option.noConfusion h
      | some x =>
          rw [hf] at h
          cases hX : extractX features rs with
          | none => rw [hX] at h; exact Option.noConfusion h
          | some xs =>
              rw [hX] at h
              cases h
              simp [ih xs hX]

theorem apply_model_extract_fail_eq (df : Table) (md : ModelDict)
    (features : List String) (label : String) (t : ℚ)
    (cm : Option (List (ℚ × ℚ))) (hXe : extractX features df = none) :
    apply_model_to_batch df md features label t cm =
      (df, ["Error in " ++ label ++ " prediction: KeyError"]) := by
  rw [apply_model_to_batch, hXe]

theorem apply_model_gmm_none_eq (df : Table) (md : ModelDict)
    (features : List String) (t : ℚ) (X : List (List ℚ))
    (hXe : extractX features df = some X) :
    apply_model_to_batch df md features "gmm" t none =
      ((df.zip ((X.map md.scaler).map md.predict)).map
         (fun p => setCol p.1 "gmm_cluster" (Val.num p.2)),
       ["Error in gmm prediction: Missing cluster_map input for GMM model."]) := by
  rw [apply_model_to_batch, hXe]
  rfl

theorem apply_model_gmm_some_eq (df : Table) (md : ModelDict)
    (features : List String) (t : ℚ) (m : List (ℚ × ℚ)) (X : List (List ℚ))
    (hXe : extractX features df = some X) :
    apply_model_to_batch df md features "gmm" t (some m) =
      ((((df.zip ((X.map md.scaler).map md.predict)).map
           (fun p => setCol p.1 "gmm_cluster" (Val.num p.2))).map
          (fun r =>
            setCol r "gmm_p_failure" (clusterLookup m (getColD r "gmm_cluster")))).map
        (fun r =>
          setCol r "gmm_risk_flag"
            (Val.bool (valGtThreshold (getColD r "gmm_p_failure") t))),
       []) := by
  rw [apply_model_to_batch, hXe]
  rfl

theorem apply_model_else_eq (df : Table) (md : ModelDict)
    (features : List String) (label : String) (t : ℚ)
    (cm : Option (List (ℚ × ℚ))) (X : List (List ℚ))
    (hXe : extractX features df = some X) (hl : label ≠ "gmm") :
    apply_model_to_batch df md features label t cm =
      (((df.zip ((X.map md.scaler).map md.predict_proba)).map
          (fun p => setCol p.1 (label ++ "_p_failure") (Val.num p.2))).map
        (fun r =>
          setCol r (label ++ "_risk_flag")
            (Val.bool (valGtThreshold (getColD r (label ++ "_p_failure")) t))),
       []) := by
  rw [apply_model_to_batch, hXe]
  simp only [if_neg hl]

/-- C10: calling `apply_model_to_batch` with `method_label = 'gmm'` and no
`cluster_map` is not atomic: on a table whose rows carry the feature
columns and do not yet carry scoring columns, it reports an error, yet
returns the table with the `gmm_cluster` column already added to every row
while neither `gmm_p_failure` nor `gmm_risk_flag` was added. -/
theorem apply_model_gmm_missing_map (df : Table) (md : ModelDict)
    (features : List String) (t : ℚ)
    (hX : (extractX features df).isSome)
    (hfresh : ∀ r ∈ df, getCol r "gmm_p_failure" = none ∧ getCol r "gmm_risk_flag" = none) :
    (apply_model_to_batch df md features "gmm" t none).2 ≠ [] ∧
    (apply_model_to_batch df md features "gmm" t none).1.length = df.length ∧
    ∀ r ∈ (apply_model_to_batch df md features "gmm" t none).1,
      (getCol r "gmm_cluster").isSome ∧
      getCol r "gmm_p_failure" = none ∧ getCol r "gmm_risk_flag" = none := by
  obtain ⟨X, hXe⟩ := Option.isSome_iff_exists.1 hX
  rw [apply_model_gmm_none_eq df md features t X hXe]
  refine ⟨by simp, ?_, ?_⟩
  · rw [List.length_map, List.length_zip, List.length_map, List.length_map,
        extractX_length features df X hXe]
    exact min_self _
  · intro r hr
    obtain ⟨p, hp, rfl⟩ := List.mem_map.1 hr
    have h1 : p.1 ∈ df := (List.of_mem_zip hp).1
    refine ⟨?_, ?_, ?_⟩
    · rw [getCol_setCol_self]
      rfl
    · rw [getCol_setCol_ne _ _ _ _ (by decide)]
      exact (hfresh p.1 h1).1
    · rw [getCol_setCol_ne _ _ _ _ (by decide)]
      exact (hfresh p.1 h1).2

/-- Witness for C10: one fresh row, a model predicting cluster 5. -/
theorem apply_model_gmm_missing_map_witness :
    (apply_model_to_batch [[("f", Val.num 1)]]
        (ModelDict.mk id (fun _ => 5) (fun _ => 0)) ["f"] "gmm" 0 none).2 ≠ [] ∧
    (apply_model_to_batch [[("f", Val.num 1)]]
        (ModelDict.mk id (fun _ => 5) (fun _ => 0)) ["f"] "gmm" 0 none).1.length = 1 ∧
    ∀ r ∈ (apply_model_to_batch [[("f", Val.num 1)]]
        (ModelDict.mk id (fun _ => 5) (fun _ => 0)) ["f"] "gmm" 0 none).1,
      (getCol r "gmm_cluster").isSome ∧
      getCol r "gmm_p_failure" = none ∧ getCol r "gmm_risk_flag" = none :=
  apply_model_gmm_missing_map [[("f", Val.num 1)]]
    (ModelDict.mk id (fun _ => 5) (fun _ => 0)) ["f"] 0 (by rfl)
    (by intro r hr; rw [List.mem_singleton.1 hr]; exact ⟨rfl, rfl⟩)

/-- C1 counterexample: the rule-based scorer produces a scored record with
`risk_flag = False` whose `risk_score` (`0.75`) exceeds the flag threshold
(`0.5`), so `risk_flag == (p_failure > flag_threshold)` fails for the
rule-based strategy (here `component_A = 0.9`, `avg_pH = 7.0`). -/
theorem rule_flag_contradicts_threshold_cmp :
    apply_risk_rules [[("component_A", Val.num (9/10)), ("avg_pH", Val.num 7)]] =
      some [[("component_A", Val.num (9/10)), ("avg_pH", Val.num 7),
             ("risk_flag", Val.bool false), ("risk_score", Val.num (3/4))]] ∧
    valGtThreshold (Val.num (3/4)) (1/2) = true := by
  constructor
  · have hflag : riskFlagRule (9/10) 7 = false := by
      unfold riskFlagRule
      rw [decide_eq_false (by norm_num : ¬ ((7:ℚ) < 69/10))]
      rw [Bool.and_false]
    have hscore : riskScoreRule (9/10) 7 = 3/4 := by
      unfold riskScoreRule
      rw [show (1/2 * ((9:ℚ)/10 - 7/10) / (1/10) + 1/2 * (69/10 - 7) / (2/10)) = 3/4 by
        norm_num]
      exact clip_eval _ (by norm_num) (by norm_num)
    simp [apply_risk_rules, scoreRow, getCol, setCol, hflag, hscore]
  · rw [valGtThreshold]
    rw [decide_eq_true (by norm_num : (1:ℚ)/2 < 3/4)]

/-- C1 amended: for every record scored without error by
`apply_model_to_batch` (any method label, hence both `gmm` and `logreg`),
the added risk-flag column equals the threshold comparison of the added
p-failure column — where a NaN `p_failure` (possible on the `gmm` path)
compares `False` and hence never "exceeds" the threshold.  The rule-based
`apply_risk_rules`, by contrast, sets `risk_flag` from the raw feature
rule, which can disagree with `risk_score > flag_threshold`. -/
theorem apply_model_flag_eq_threshold_cmp (df : Table) (md : ModelDict)
    (features : List String) (label : String) (t : ℚ)
    (cm : Option (List (ℚ × ℚ)))
    (hok : (apply_model_to_batch df md features label t cm).2 = [])
    (r : Row) (hr : r ∈ (apply_model_to_batch df md features label t cm).1) :
    ∃ p : Val, getCol r (label ++ "_p_failure") = some p ∧
      getCol r (label ++ "_risk_flag") = some (Val.bool (valGtThreshold p t)) := by
  cases hXe : extractX features df with
  | none =>
      rw [apply_model_extract_fail_eq df md features label t cm hXe] at hok
      exact absurd hok (by simp)
  | some X =>
      by_cases hl : label = "gmm"
      · subst hl
        cases cm with
        | none =>
            rw [apply_model_gmm_none_eq df md features t X hXe] at hok
            exact absurd hok (by simp)
        | some m =>
            rw [apply_model_gmm_some_eq df md features t m X hXe] at hr
            obtain ⟨r2, hr2, rfl⟩ := List.mem_map.1 hr
            obtain ⟨r1, hr1, rfl⟩ := List.mem_map.1 hr2
            have e1 : ("gmm" ++ "_p_failure" : String) = "gmm_p_failure" := rfl
            have e2 : ("gmm" ++ "_risk_flag" : String) = "gmm_risk_flag" := rfl
            rw [e1, e2]
            refine ⟨clusterLookup m (getColD r1 "gmm_cluster"), ?_, ?_⟩
            · rw [getCol_setCol_ne _ _ _ _ (by decide), getCol_setCol_self]
            · rw [getCol_setCol_self]
              have hd2 : getColD (setCol r1 "gmm_p_failure"
                    (clusterLookup m (getColD r1 "gmm_cluster"))) "gmm_p_failure"
                  = clusterLookup m (getColD r1 "gmm_cluster") := by
                rw [getColD, getCol_setCol_self]
                rfl
              rw [hd2]
      · rw [apply_model_else_eq df md features label t cm X hXe hl] at hr
        obtain ⟨r2, hr2, rfl⟩ := List.mem_map.1 hr
        obtain ⟨p0, hp0, rfl⟩ := List.mem_map.1 hr2
        refine ⟨Val.num p0.2, ?_, ?_⟩
        · rw [getCol_setCol_ne _ _ _ _ (Ne.symm (pfail_ne_flag label)), getCol_setCol_self]
        · rw [getCol_setCol_self]
          have hd2 : getColD (setCol p0.1 (label ++ "_p_failure") (Val.num p0.2))
              (label ++ "_p_failure") = Val.num p0.2 := by
            rw [getColD, getCol_setCol_self]
            rfl
          rw [hd2]

/-- Witness for C1 (amended): a one-row `logreg` scoring with constant
predicted probability 2 and threshold 1; the scored row's flag equals the
comparison. -/
theorem apply_model_flag_eq_threshold_cmp_witness :
    ∃ p : Val,
      getCol (setCol (setCol [("f", Val.num 1)] ("logreg" ++ "_p_failure") (Val.num 2))
          ("logreg" ++ "_risk_flag")
          (Val.bool (valGtThreshold
            (getColD (setCol [("f", Val.num 1)] ("logreg" ++ "_p_failure") (Val.num 2))
              ("logreg" ++ "_p_failure")) 1)))
        ("logreg" ++ "_p_failure") = some p ∧
      getCol (setCol (setCol [("f", Val.num 1)] ("logreg" ++ "_p_failure") (Val.num 2))
          ("logreg" ++ "_risk_flag")
          (Val.bool (valGtThreshold
            (getColD (setCol [("f", Val.num 1)] ("logreg" ++ "_p_failure") (Val.num 2))
              ("logreg" ++ "_p_failure")) 1)))
        ("logreg" ++ "_risk_flag") = some (Val.bool (valGtThreshold p 1)) :=
  apply_model_flag_eq_threshold_cmp [[("f", Val.num 1)]]
    (ModelDict.mk id (fun _ => 0) (fun _ => 2)) ["f"] "logreg" 1 none rfl
    (setCol (setCol [("f", Val.num 1)] ("logreg" ++ "_p_failure") (Val.num 2))
      ("logreg" ++ "_risk_flag")
      (Val.bool (valGtThreshold
        (getColD (setCol [("f", Val.num 1)] ("logreg" ++ "_p_failure") (Val.num 2))
          ("logreg" ++ "_p_failure")) 1)))
    (List.mem_singleton.2 rfl)

/-- C3 counterexample: on the gmm path with a supplied `cluster_map`
lacking the predicted cluster id (5 is not a key of `{0: 2}`),
`apply_model_to_batch` signals nothing — no message is printed and nothing
is raised — and silently gives the record a NaN `gmm_p_failure` with
`gmm_risk_flag = False`. -/
theorem gmm_unseen_cluster_is_silent :
    apply_model_to_batch [[("f", Val.num 1)]]
        (ModelDict.mk id (fun _ => 5) (fun _ => 0)) ["f"] "gmm" 0
        (some [(0, 2)]) =
      ([[("f", Val.num 1), ("gmm_cluster", Val.num 5),
         ("gmm_p_failure", Val.nan), ("gmm_risk_flag", Val.bool false)]], []) := rfl

/-- C3 amended: only an absent (`None`) `cluster_map` is treated as an
error on the gmm path; a predicted cluster id that is not a key of a
supplied `cluster_map` is *silently* defaulted — the run reports no
message and the record gets a NaN `gmm_p_failure` and a `False`
`gmm_risk_flag`. -/
theorem gmm_unseen_cluster_defaults_to_nan (df : Table) (md : ModelDict)
    (features : List String) (t : ℚ) (m : List (ℚ × ℚ))
    (hX : (extractX features df).isSome)
    (r : Row) (hr : r ∈ (apply_model_to_batch df md features "gmm" t (some m)).1)
    (c : ℚ) (hc : getCol r "gmm_cluster" = some (Val.num c))
    (hm : mapLookup m c = none) :
    (apply_model_to_batch df md features "gmm" t (some m)).2 = [] ∧
    getCol r "gmm_p_failure" = some Val.nan ∧
    getCol r "gmm_risk_flag" = some (Val.bool false) := by
  obtain ⟨X, hXe⟩ := Option.isSome_iff_exists.1 hX
  rw [apply_model_gmm_some_eq df md features t m X hXe] at hr ⊢
  obtain ⟨r2, hr2, rfl⟩ := List.mem_map.1 hr
  obtain ⟨r1, hr1, rfl⟩ := List.mem_map.1 hr2
  rw [getCol_setCol_ne _ _ _ _ (by decide), getCol_setCol_ne _ _ _ _ (by decide)] at hc
  have hd : getColD r1 "gmm_cluster" = Val.num c := by
    rw [getColD, hc]
    rfl
  have hvp : clusterLookup m (getColD r1 "gmm_cluster") = Val.nan := by
    rw [hd, clusterLookup, hm]
  refine ⟨rfl, ?_, ?_⟩
  · rw [getCol_setCol_ne _ _ _ _ (by decide), getCol_setCol_self, hvp]
  · rw [getCol_setCol_self]
    have hd2 : getColD (setCol r1 "gmm_p_failure"
          (clusterLookup m (getColD r1 "gmm_cluster"))) "gmm_p_failure" = Val.nan := by
      rw [getColD, getCol_setCol_self]
      rw [hvp]
      rfl
    rw [hd2]
    rfl

/-- Witness for C3 (amended): the concrete unseen-cluster run (cluster 5,
map `{0: 2}`). -/
theorem gmm_unseen_cluster_defaults_to_nan_witness :
    (apply_model_to_batch [[("f", Val.num 1)]]
        (ModelDict.mk id (fun _ => 5) (fun _ => 0)) ["f"] "gmm" 0
        (some [(0, 2)])).2 = [] ∧
    getCol [("f", Val.num 1), ("gmm_cluster", Val.num 5),
            ("gmm_p_failure", Val.nan), ("gmm_risk_flag", Val.bool false)]
        "gmm_p_failure" = some Val.nan ∧
    getCol [("f", Val.num 1), ("gmm_cluster", Val.num 5),
            ("gmm_p_failure", Val.nan), ("gmm_risk_flag", Val.bool false)]
        "gmm_risk_flag" = some (Val.bool false) :=
  gmm_unseen_cluster_defaults_to_nan [[("f", Val.num 1)]]
    (ModelDict.mk id (fun _ => 5) (fun _ => 0)) ["f"] 0 [(0, 2)] (by rfl)
    [("f", Val.num 1), ("gmm_cluster", Val.num 5),
     ("gmm_p_failure", Val.nan), ("gmm_risk_flag", Val.bool false)]
    (List.mem_singleton.2 rfl)
    5 rfl rfl

end BatchTools
